import Mathlib

/-!
Verification development for the vector-similarity search service
(`src/storage/spfresh.rs`, `src/api/*`).

Modelling conventions:
* The native SPFresh engine is an opaque FFI capability.  Every native call a
  Rust function makes is recorded as a `NativeCall` event, and the value the
  native side returns is an explicit input (an "environment") of the Lean
  function.  "The native engine was not touched" is then the statement that
  the recorded call list is empty.
* Filesystem operations (`remove_dir_all`, `create_dir_all`, `File::open`,
  tar/gzip packing and unpacking) are fallible; whether each one succeeds is
  an explicit boolean input, and the existence of the staging directory
  (`path.with_extension("tmp")`) is threaded through as state.
* Rust `f32` payloads are modelled by the ordered scalar type `F32 := Int`:
  the code never computes with the float values, it only copies them and
  compares distances, so only identity and order are relevant.
* Rust `String` request/record fields are modelled as `List Char`, so that
  `str::trim` has a structural, kernel-computable model.
* `&mut self` methods return the updated `VectorIndex` state; on the error
  paths the returned state is the input state, exactly as in Rust where the
  early `bail!` returns leave `self` untouched.
-/

deriving instance DecidableEq for Except

namespace VectorService

/-- Model of Rust `f32` payload values: the code only copies them and
compares distances, never computes with them, so an ordered scalar stands in. -/
abbrev F32 := Int

/-- Model of a Rust `String` field, so that `trim` is kernel-computable. -/
abbrev RString := List Char

/-- Model of Rust `str::trim`: strip leading and trailing whitespace. -/
def trim (s : RString) : RString :=
  ((s.dropWhile Char.isWhitespace).reverse.dropWhile Char.isWhitespace).reverse

/-- Calls made across the native FFI boundary (`spfresh_*` functions). -/
inductive NativeCall where
  | addVector (vector : List F32) (dim : Nat)
  | buildIndex (flat : List F32) (numVectors : Nat) (dim : Nat)
  | searchIndex (dim : Nat) (k : Nat)
  | saveIndex
  | loadIndex
  | getNumVectors
  | getDimension
  | destroyIndex
  deriving DecidableEq, Repr

/-- Non-fatal conditions the code logs (`warn!` / `error!`) without failing. -/
inductive Warning where
  | dimensionChanged (loaded : Nat) (configured : Nat)
  | idMismatch (vector_id : Nat) (stored_id : Nat)
  deriving DecidableEq, Repr

/-- Error kinds distinguished by the `anyhow::bail!` sites and `?` operators
of `src/storage/spfresh.rs`. -/
inductive IndexError where
  | DimensionMismatch
  | NotInitialized
  | AddFailed
  | BuildFailed
  | SearchFailed
  | SaveFailed
  | LoadNull
  | PathNotFound
  | ExtractError
  | InvalidPath
  | IoError
  deriving DecidableEq, Repr

/-- State of `VectorIndex` (`src/storage/spfresh.rs`): `index_ptr` is the
owned opaque native handle (`none` models a null pointer), `vector_count`
the locally cached count. -/
structure VectorIndex where
  index_type : String
  vector_dim : Nat
  num_trees : Nat
  index_ptr : Option Nat
  vector_count : Nat
  deriving DecidableEq, Repr

/-- Result of a `&mut self` index operation returning a value of type `α`:
the updated state, the Rust `Result`, and the native calls made. -/
structure AddOutcome where
  state : VectorIndex
  result : Except IndexError Nat
  calls : List NativeCall
  deriving DecidableEq, Repr

/-- Model of `VectorIndex::add_vector`.  `nativeRet` is the `c_int` returned
by `spfresh_add_vector` when (and only when) the call is reached. -/
def VectorIndex.add_vector (idx : VectorIndex) (vector : List F32)
    (nativeRet : Int) : AddOutcome :=
  if vector.length ≠ idx.vector_dim then
    ⟨idx, .error .DimensionMismatch, []⟩
  else if idx.index_ptr.isNone then
    ⟨idx, .error .NotInitialized, []⟩
  else
    let calls := [NativeCall.addVector vector idx.vector_dim]
    if nativeRet < 0 then
      ⟨idx, .error .AddFailed, calls⟩
    else
      ⟨{ idx with vector_count := idx.vector_count + 1 }, .ok nativeRet.toNat, calls⟩

/-- Result of `VectorIndex::build_from_vectors`. -/
structure BuildOutcome where
  state : VectorIndex
  result : Except IndexError Unit
  calls : List NativeCall
  deriving DecidableEq, Repr

/-- Model of the flattening loop of `build_from_vectors`: extend the flat
buffer vector by vector, bailing with `DimensionMismatch` at the first
vector of the wrong length (all before any native call). -/
def flattenChecked (dim : Nat) : List (List F32) → Except IndexError (List F32)
  | [] => .ok []
  | v :: rest =>
    if v.length ≠ dim then .error .DimensionMismatch
    else
      match flattenChecked dim rest with
      | .error e => .error e
      | .ok flat => .ok (v ++ flat)

/-- Model of `VectorIndex::build_from_vectors`.  `nativeRet` is the status
returned by `spfresh_build_index` when the call is reached. -/
def VectorIndex.build_from_vectors (idx : VectorIndex) (vectors : List (List F32))
    (nativeRet : Int) : BuildOutcome :=
  if vectors.isEmpty then
    ⟨idx, .ok (), []⟩
  else if idx.index_ptr.isNone then
    ⟨idx, .error .NotInitialized, []⟩
  else
    match flattenChecked idx.vector_dim vectors with
    | .error e => ⟨idx, .error e, []⟩
    | .ok flat =>
      let calls := [NativeCall.buildIndex flat vectors.length idx.vector_dim]
      if nativeRet ≠ 0 then
        ⟨idx, .error .BuildFailed, calls⟩
      else
        ⟨{ idx with vector_count := vectors.length }, .ok (), calls⟩

/-- One search hit (`SearchResult` in `spfresh.rs`). -/
structure SearchResult where
  vector_id : Nat
  distance : F32
  deriving DecidableEq, Repr

/-- What the native `spfresh_search` call produced: its return count and the
contents of the two caller-allocated buffers of length `k` after the call. -/
structure SearchNative where
  ret : Int
  ids : List Int
  dists : List F32
  deriving DecidableEq, Repr

/-- Result of `VectorIndex::search` (a `&self` method: no state change). -/
structure SearchOutcome where
  result : Except IndexError (List SearchResult)
  calls : List NativeCall
  deriving DecidableEq, Repr

/-- Model of `VectorIndex::search`: dimension gate, initialization gate,
native call, negative-count failure, then the collected
`(0..count).map(|i| SearchResult { result_indices[i], result_distances[i] })`. -/
def VectorIndex.search (idx : VectorIndex) (query_vector : List F32) (k : Nat)
    (native : SearchNative) : SearchOutcome :=
  if query_vector.length ≠ idx.vector_dim then
    ⟨.error .DimensionMismatch, []⟩
  else if idx.index_ptr.isNone then
    ⟨.error .NotInitialized, []⟩
  else
    let calls := [NativeCall.searchIndex idx.vector_dim k]
    if native.ret < 0 then
      ⟨.error .SearchFailed, calls⟩
    else
      let results := (List.range native.ret.toNat).map fun i =>
        SearchResult.mk (native.ids.getD i 0).toNat (native.dists.getD i 0)
      ⟨.ok results, calls⟩

/-- Environment of `VectorIndex::save`: which filesystem steps succeed and
what the native save returns.  `stagingExists0` is whether the staging
directory `path.with_extension("tmp")` exists beforehand. -/
structure SaveEnv where
  stagingExists0 : Bool
  removePreOk : Bool
  createOk : Bool
  tempPathValid : Bool
  nativeRet : Int
  removeAfterFailOk : Bool
  archiveOk : Bool
  removeFinalOk : Bool
  deriving DecidableEq, Repr

/-- Result of `VectorIndex::save` (a `&self` method): the Rust `Result`,
whether the staging directory still exists afterwards, and the native calls. -/
structure SaveOutcome where
  result : Except IndexError Unit
  stagingAfter : Bool
  calls : List NativeCall
  deriving DecidableEq, Repr

/-- Model of `VectorIndex::save`: null gate, staging-directory preparation,
native folder save (removing staging on native failure), tar.gz packing,
final staging removal. -/
def VectorIndex.save (idx : VectorIndex) (env : SaveEnv) : SaveOutcome :=
  if idx.index_ptr.isNone then
    ⟨.error .NotInitialized, env.stagingExists0, []⟩
  else if env.stagingExists0 && !env.removePreOk then
    ⟨.error .IoError, true, []⟩
  else if !env.createOk then
    ⟨.error .IoError, false, []⟩
  else if !env.tempPathValid then
    ⟨.error .InvalidPath, true, []⟩
  else if env.nativeRet ≠ 0 then
    if !env.removeAfterFailOk then ⟨.error .IoError, true, [NativeCall.saveIndex]⟩
    else ⟨.error .SaveFailed, false, [NativeCall.saveIndex]⟩
  else if !env.archiveOk then
    ⟨.error .IoError, true, [NativeCall.saveIndex]⟩
  else if !env.removeFinalOk then
    ⟨.error .IoError, true, [NativeCall.saveIndex]⟩
  else
    ⟨.ok (), false, [NativeCall.saveIndex]⟩

/-- Environment of `VectorIndex::load`: which filesystem steps succeed, the
handle the native load returns (`none` = null), and the counts the freshly
loaded index reports. -/
structure LoadEnv where
  pathExists : Bool
  stagingExists0 : Bool
  removePreOk : Bool
  createOk : Bool
  openOk : Bool
  unpackOk : Bool
  tempPathValid : Bool
  nativeHandle : Option Nat
  removeAfterNullOk : Bool
  nativeNumVectors : Int
  nativeDimension : Int
  removeFinalOk : Bool
  deriving DecidableEq, Repr

/-- Result of `VectorIndex::load` (a `&mut self` method). -/
structure LoadOutcome where
  state : VectorIndex
  result : Except IndexError Unit
  stagingAfter : Bool
  calls : List NativeCall
  warnings : List Warning
  deriving DecidableEq, Repr

/-- Installation step of `VectorIndex::load`, i.e. the code after the
null-handle check succeeded with handle `h`: destroy the old resource if
present, install the new one, refresh the cached count and (with a
warning) the configured dimension from the loaded index, then remove the
staging directory. -/
def VectorIndex.loadInstall (idx : VectorIndex) (h : Nat)
    (nativeNumVectors nativeDimension : Int) (removeFinalOk : Bool) : LoadOutcome :=
  let destroyCalls := if idx.index_ptr.isSome then [NativeCall.destroyIndex] else []
  let idx1 : VectorIndex := { idx with index_ptr := some h }
  let idx2 : VectorIndex :=
    if 0 ≤ nativeNumVectors then
      { idx1 with vector_count := nativeNumVectors.toNat }
    else idx1
  let dimDiffers : Bool :=
    decide (0 ≤ nativeDimension) && decide (nativeDimension.toNat ≠ idx.vector_dim)
  let idx3 : VectorIndex :=
    if dimDiffers then { idx2 with vector_dim := nativeDimension.toNat } else idx2
  let warns : List Warning :=
    if dimDiffers then [Warning.dimensionChanged nativeDimension.toNat idx.vector_dim]
    else []
  let calls := NativeCall.loadIndex :: destroyCalls
    ++ [NativeCall.getNumVectors, NativeCall.getDimension]
  if !removeFinalOk then
    ⟨idx3, .error .IoError, true, calls, warns⟩
  else
    ⟨idx3, .ok (), false, calls, warns⟩

/-- Model of `VectorIndex::load`: existence gate, staging preparation,
archive open + extraction, native load (removing staging and bailing on a
null handle), then the installation step `loadInstall`. -/
def VectorIndex.load (idx : VectorIndex) (env : LoadEnv) : LoadOutcome :=
  if !env.pathExists then
    ⟨idx, .error .PathNotFound, env.stagingExists0, [], []⟩
  else if env.stagingExists0 && !env.removePreOk then
    ⟨idx, .error .IoError, true, [], []⟩
  else if !env.createOk then
    ⟨idx, .error .IoError, false, [], []⟩
  else if !env.openOk then
    ⟨idx, .error .IoError, true, [], []⟩
  else if !env.unpackOk then
    ⟨idx, .error .ExtractError, true, [], []⟩
  else if !env.tempPathValid then
    ⟨idx, .error .InvalidPath, true, [], []⟩
  else
    match env.nativeHandle with
    | none =>
      if !env.removeAfterNullOk then
        ⟨idx, .error .IoError, true, [NativeCall.loadIndex], []⟩
      else
        ⟨idx, .error .LoadNull, false, [NativeCall.loadIndex], []⟩
    | some h =>
      idx.loadInstall h env.nativeNumVectors env.nativeDimension env.removeFinalOk

/-- One review record of the metadata log (`ReviewMetadata` in
`src/storage`): title, body, product identifier, rating (Rust `u8`). -/
structure ReviewMetadata where
  review_title : RString
  review_body : RString
  product_id : RString
  review_rating : Nat
  deriving DecidableEq, Repr

/-- Errors of the metadata log. -/
inductive JsonlError where
  | RecordNotFound (id : Nat)
  deriving DecidableEq, Repr

/-- Modelled from the spec: `JsonlStorage::read_batch` (the file
`src/storage/jsonl.rs` is declared by `src/storage/mod.rs` but absent from
the sources).  Given an ordered list of IDs it returns the corresponding
records in the same order, failing with `RecordNotFound` at the first ID
with no corresponding line; the log is the list of appended records, a
record's ID being its zero-based ordinal position. -/
def read_batch (log : List ReviewMetadata) : List Nat → Except JsonlError (List ReviewMetadata)
  | [] => .ok []
  | id :: rest =>
    match log.get? id with
    | none => .error (.RecordNotFound id)
    | some r =>
      match read_batch log rest with
      | .error e => .error e
      | .ok rs => .ok (r :: rs)

/-- Modelled from the spec: `JsonlStorage::count_lines` — the number of
records currently persisted in the append-only log. -/
def count_lines (log : List ReviewMetadata) : Nat :=
  log.length

/-- Request body of the add-review endpoint (`src/api/models.rs`). -/
structure AddReviewRequest where
  review_title : RString
  review_body : RString
  product_id : RString
  review_rating : Nat
  deriving DecidableEq, Repr

/-- Model of `AddReviewRequest::validate` (`src/api/models.rs`). -/
def AddReviewRequest.validate (r : AddReviewRequest) : Except String Unit :=
  if (trim r.review_title).isEmpty then .error "Review title cannot be empty"
  else if (trim r.review_body).isEmpty then .error "Review body cannot be empty"
  else if (trim r.product_id).isEmpty then .error "Product ID cannot be empty"
  else if r.review_rating < 1 ∨ r.review_rating > 5 then
    .error "Review rating must be between 1 and 5"
  else .ok ()

/-- Request body of the search endpoint (`src/api/models.rs`). -/
structure SearchRequest where
  query : RString
  top_k : Nat
  deriving DecidableEq, Repr

/-- Model of `SearchRequest::validate` (`src/api/models.rs`). -/
def SearchRequest.validate (r : SearchRequest) : Except String Unit :=
  if (trim r.query).isEmpty then .error "Query cannot be empty"
  else if r.top_k = 0 ∨ r.top_k > 100 then .error "top_k must be between 1 and 100"
  else .ok ()

/-- Application error type (`AppError` in `src/api/models.rs`). -/
inductive AppError where
  | BadRequest (msg : String)
  | Internal (msg : String)
  deriving DecidableEq, Repr

/-- HTTP status code assigned by `impl IntoResponse for AppError`. -/
def AppError.status_code : AppError → Nat
  | .BadRequest _ => 400
  | .Internal _ => 500

/-- Whether a handler result is the client-fault (`BadRequest`) rejection. -/
def isBadRequest {α : Type} : Except AppError α → Bool
  | .error (.BadRequest _) => true
  | _ => false

/-- Response of the add-review endpoint. -/
structure AddReviewResponse where
  vector_id : Nat
  status : String
  deriving DecidableEq, Repr

/-- One assembled search hit returned to the client. -/
structure SearchResultItem where
  review_title : RString
  review_body : RString
  product_id : RString
  review_rating : Nat
  similarity_score : F32
  vector_id : Nat
  deriving DecidableEq, Repr

/-- Response of the search endpoint. -/
structure SearchResponse where
  results : List SearchResultItem
  total_found : Nat
  query : RString
  deriving DecidableEq, Repr

/-- Response of the health endpoint. -/
structure HealthResponse where
  status : String
  total_reviews : Nat
  deriving DecidableEq, Repr

/-- Observable effects a handler triggers: an embedding-model call or a
native index call. -/
inductive Event where
  | embedCall
  | native (c : NativeCall)
  deriving DecidableEq, Repr

/-- Environment of `add_review_handler`: what the embedding model returns,
what the native add returns, the save environment, and what the metadata
append returns. -/
structure AddReviewEnv where
  embedResult : Except String (List F32)
  addRet : Int
  saveEnv : SaveEnv
  appendResult : Except String Nat
  deriving DecidableEq, Repr

/-- Result of a handler: final index state, the HTTP-level result, the
effects triggered, and the warnings recorded. -/
structure HandlerOutcome (α : Type) where
  state : VectorIndex
  result : Except AppError α
  events : List Event
  warnings : List Warning
  deriving DecidableEq, Repr

/-- Model of `add_review_handler` (`src/api/review/handlers.rs`, identical
in behaviour to the copy in `src/api/handlers.rs`): validate, embed, add
vector and save snapshot under the write lock, append metadata, compare the
two IDs (logging a mismatch without failing), and reply success with the
vector's ID. -/
def add_review_handler (idx : VectorIndex) (req : AddReviewRequest)
    (env : AddReviewEnv) : HandlerOutcome AddReviewResponse :=
  match req.validate with
  | .error msg => ⟨idx, .error (.BadRequest msg), [], []⟩
  | .ok () =>
    match env.embedResult with
    | .error _ => ⟨idx, .error (.Internal "Embedding failed"), [.embedCall], []⟩
    | .ok embedding =>
      let a := idx.add_vector embedding env.addRet
      match a.result with
      | .error _ =>
        ⟨a.state, .error (.Internal "Add vector failed"),
          Event.embedCall :: a.calls.map .native, []⟩
      | .ok vector_id =>
        let s := a.state.save env.saveEnv
        let events := Event.embedCall :: (a.calls ++ s.calls).map .native
        match s.result with
        | .error _ => ⟨a.state, .error (.Internal "Save index failed"), events, []⟩
        | .ok () =>
          match env.appendResult with
          | .error _ => ⟨a.state, .error (.Internal "Store metadata failed"), events, []⟩
          | .ok stored_id =>
            let warns :=
              if vector_id ≠ stored_id then [Warning.idMismatch vector_id stored_id] else []
            ⟨a.state, .ok ⟨vector_id, "success"⟩, events, warns⟩

/-- Environment of `search_handler`: the embedding result, the native
search outcome, and the metadata log contents backing `read_batch`. -/
structure SearchHandlerEnv where
  embedResult : Except String (List F32)
  native : SearchNative
  log : List ReviewMetadata
  deriving DecidableEq, Repr

/-- Model of `search_handler` (`src/api/search/handlers.rs`, identical in
behaviour to the copy in `src/api/handlers.rs`): validate, embed, search
under the read lock, batch-read metadata for the returned IDs, and zip the
two in rank order with `similarity_score = 1 - distance`. -/
def search_handler (idx : VectorIndex) (req : SearchRequest)
    (env : SearchHandlerEnv) : HandlerOutcome SearchResponse :=
  match req.validate with
  | .error msg => ⟨idx, .error (.BadRequest msg), [], []⟩
  | .ok () =>
    match env.embedResult with
    | .error _ => ⟨idx, .error (.Internal "Embedding failed"), [.embedCall], []⟩
    | .ok embedding =>
      let s := idx.search embedding req.top_k env.native
      let events := Event.embedCall :: s.calls.map .native
      match s.result with
      | .error _ => ⟨idx, .error (.Internal "Search failed"), events, []⟩
      | .ok search_results =>
        match read_batch env.log (search_results.map SearchResult.vector_id) with
        | .error _ => ⟨idx, .error (.Internal "Metadata read failed"), events, []⟩
        | .ok metadata_list =>
          let results := (search_results.zip metadata_list).map fun p =>
            SearchResultItem.mk p.2.review_title p.2.review_body p.2.product_id
              p.2.review_rating (1 - p.1.distance) p.1.vector_id
          ⟨idx, .ok ⟨results, results.length, req.query⟩, events, []⟩

/-- Model of `health_handler` (`src/api/mod.rs`, identical in behaviour to
the copy in `src/api/handlers.rs`): report status "healthy" and
`count_lines().unwrap_or(0)` as the review total.  `countResult` is what
`JsonlStorage::count_lines` returned, `none` modelling its failure. -/
def health_handler (countResult : Except String Nat) : HealthResponse :=
  ⟨"healthy", match countResult with | .ok n => n | .error _ => 0⟩

/-! Helper lemmas. -/

/-- Validation inside the flattening loop: a vector of the wrong length
anywhere in the list makes the whole flattening fail with
`DimensionMismatch`. -/
theorem flattenChecked_error_of_bad {dim : Nat} {vs : List (List F32)}
    (h : ∃ v ∈ vs, v.length ≠ dim) :
    flattenChecked dim vs = .error .DimensionMismatch := by
  induction vs with
  | nil => simp at h
  | cons v rest ih =>
    rcases h with ⟨w, hw, hlen⟩
    unfold flattenChecked
    rcases List.mem_cons.mp hw with rfl | hmem
    · simp [hlen]
    · by_cases hv : v.length ≠ dim
      · simp [hv]
      · simp [hv, ih ⟨w, hmem, hlen⟩]

/-- Shape of the installation step's result: success iff the final staging
removal succeeded. -/
theorem loadInstall_result (idx : VectorIndex) (h : Nat) (nn nd : Int) (rf : Bool) :
    (idx.loadInstall h nn nd rf).result =
      if rf then .ok () else .error .IoError := by
  unfold VectorIndex.loadInstall
  cases rf <;> simp

/-- The installation step leaves the staging directory iff the final
removal failed. -/
theorem loadInstall_stagingAfter (idx : VectorIndex) (h : Nat) (nn nd : Int) (rf : Bool) :
    (idx.loadInstall h nn nd rf).stagingAfter = !rf := by
  unfold VectorIndex.loadInstall
  cases rf <;> simp

/-- Native calls of the installation step: the load, then the destroy of
the old resource exactly when one was present, then the two stat reads. -/
theorem loadInstall_calls (idx : VectorIndex) (h : Nat) (nn nd : Int) (rf : Bool) :
    (idx.loadInstall h nn nd rf).calls =
      NativeCall.loadIndex ::
        ((if idx.index_ptr.isSome then [NativeCall.destroyIndex] else []) ++
          [NativeCall.getNumVectors, NativeCall.getDimension]) := by
  unfold VectorIndex.loadInstall
  cases rf <;> simp

/-- The installation step installs the freshly loaded handle. -/
theorem loadInstall_index_ptr (idx : VectorIndex) (h : Nat) (nn nd : Int) (rf : Bool) :
    (idx.loadInstall h nn nd rf).state.index_ptr = some h := by
  unfold VectorIndex.loadInstall
  cases rf <;> simp <;> split_ifs <;> rfl

/-- The installation step refreshes the cached count from the loaded
index's (non-negative) reported count. -/
theorem loadInstall_vector_count (idx : VectorIndex) (h : Nat) {nn : Int} (nd : Int)
    (rf : Bool) (hnn : 0 ≤ nn) :
    (idx.loadInstall h nn nd rf).state.vector_count = nn.toNat := by
  unfold VectorIndex.loadInstall
  cases rf <;> simp [hnn] <;> split_ifs <;> rfl

/-- The installation step overwrites the configured dimension, with a
warning, exactly when the loaded index's (non-negative) reported dimension
differs from it. -/
theorem loadInstall_vector_dim (idx : VectorIndex) (h : Nat) (nn : Int) {nd : Int}
    (rf : Bool) (hnd : 0 ≤ nd) :
    (nd.toNat ≠ idx.vector_dim →
      (idx.loadInstall h nn nd rf).state.vector_dim = nd.toNat ∧
      Warning.dimensionChanged nd.toNat idx.vector_dim
        ∈ (idx.loadInstall h nn nd rf).warnings) ∧
    (nd.toNat = idx.vector_dim →
      (idx.loadInstall h nn nd rf).state.vector_dim = idx.vector_dim) := by
  unfold VectorIndex.loadInstall
  cases rf <;> by_cases hne : nd.toNat = idx.vector_dim <;>
    simp [hnd, hne] <;> split_ifs <;> simp_all

/-- Exhaustive case shape of `load`: each failure before the native load
returns the untouched state with no native call, a null native handle
fails after the single load call, and a non-null handle hands over to the
installation step. -/
theorem load_cases (idx : VectorIndex) (env : LoadEnv) :
    idx.load env = ⟨idx, .error .PathNotFound, env.stagingExists0, [], []⟩ ∨
    idx.load env = ⟨idx, .error .IoError, true, [], []⟩ ∨
    idx.load env = ⟨idx, .error .IoError, false, [], []⟩ ∨
    idx.load env = ⟨idx, .error .ExtractError, true, [], []⟩ ∨
    idx.load env = ⟨idx, .error .InvalidPath, true, [], []⟩ ∨
    (env.nativeHandle = none ∧
      idx.load env = ⟨idx, .error .IoError, true, [NativeCall.loadIndex], []⟩) ∨
    (env.nativeHandle = none ∧
      idx.load env = ⟨idx, .error .LoadNull, false, [NativeCall.loadIndex], []⟩) ∨
    (∃ h, env.nativeHandle = some h ∧
      idx.load env =
        idx.loadInstall h env.nativeNumVectors env.nativeDimension env.removeFinalOk) := by
  unfold VectorIndex.load
  cases hpe : env.pathExists
  · simp
  · cases hsr : env.stagingExists0 && !env.removePreOk
    · cases hco : env.createOk
      · simp
      · cases hoo : env.openOk
        · simp
        · cases huo : env.unpackOk
          · simp
          · cases htv : env.tempPathValid
            · simp
            · cases hnh : env.nativeHandle
              · cases hra : env.removeAfterNullOk <;> simp
              · simp
    · simp

/-! Claim theorems. -/

/-- C2: `add_vector` fails with `DimensionMismatch` on a wrong-length
vector and (given a matching length) with `NotInitialized` on a null
handle, in both cases leaving the state untouched and making no native
call; on success (native ID ≥ 0) it returns the native-assigned ID and
increments the cached `vector_count` by exactly one. -/
theorem add_vector_spec (idx : VectorIndex) (v : List F32) (ret : Int) :
    (v.length ≠ idx.vector_dim →
      idx.add_vector v ret = ⟨idx, .error .DimensionMismatch, []⟩) ∧
    (v.length = idx.vector_dim → idx.index_ptr = none →
      idx.add_vector v ret = ⟨idx, .error .NotInitialized, []⟩) ∧
    (v.length = idx.vector_dim → idx.index_ptr.isSome = true → 0 ≤ ret →
      (idx.add_vector v ret).result = .ok ret.toNat ∧
      (idx.add_vector v ret).state.vector_count = idx.vector_count + 1) := by
  obtain ⟨it, vd, nt, ptr, vc⟩ := idx
  refine ⟨fun h => ?_, fun h h2 => ?_, fun h h2 h3 => ?_⟩
  · simp [VectorIndex.add_vector, h]
  · subst h2; simp [VectorIndex.add_vector, h]
  · cases ptr with
    | none => simp at h2
    | some p => simp [VectorIndex.add_vector, h, Int.not_lt.mpr h3]

/-- C2 witness: concrete instances of the three cases at dimension 4. -/
theorem add_vector_spec_witness :
    (VectorIndex.mk "BKT" 4 8 (some 1) 3).add_vector [1, 2] 5 =
      ⟨⟨"BKT", 4, 8, some 1, 3⟩, .error .DimensionMismatch, []⟩ ∧
    (VectorIndex.mk "BKT" 4 8 none 3).add_vector [1, 2, 3, 4] 5 =
      ⟨⟨"BKT", 4, 8, none, 3⟩, .error .NotInitialized, []⟩ ∧
    ((VectorIndex.mk "BKT" 4 8 (some 1) 3).add_vector [1, 2, 3, 4] 5).result = .ok 5 ∧
    ((VectorIndex.mk "BKT" 4 8 (some 1) 3).add_vector [1, 2, 3, 4] 5).state.vector_count
      = 3 + 1 := by
  refine ⟨(add_vector_spec _ _ _).1 (by decide),
    (add_vector_spec _ _ _).2.1 (by decide) rfl, ?_, ?_⟩
  · exact ((add_vector_spec _ [1, 2, 3, 4] 5).2.2 (by decide) (by decide) (by decide)).1
  · exact ((add_vector_spec _ [1, 2, 3, 4] 5).2.2 (by decide) (by decide) (by decide)).2

/-- C4 counterexample: on the empty list `build_from_vectors` returns
success but leaves the previously cached `vector_count` (here 3) in place,
so the cached count does not equal `len(vs) = 0`. -/
theorem build_from_vectors_empty_counterexample :
    (VectorIndex.build_from_vectors ⟨"BKT", 4, 8, some 1, 3⟩ [] 0).result = .ok () ∧
    (VectorIndex.build_from_vectors ⟨"BKT", 4, 8, some 1, 3⟩ [] 0).state.vector_count = 3 ∧
    ([] : List (List F32)).length = 0 ∧ (3 : Nat) ≠ 0 := by decide

/-- C4 amended: `build_from_vectors` validates every vector's dimension
before any native call — a wrong-length element fails the whole call with
no native call and no state change; whenever it returns success on a
NONEMPTY list the cached `vector_count` equals `len(vs)` (overwrite, not
increment); the empty list is accepted as an immediate no-op that makes no
native call and leaves the cached count unchanged. -/
theorem build_from_vectors_spec (idx : VectorIndex) (vs : List (List F32)) (ret : Int) :
    ((∃ v ∈ vs, v.length ≠ idx.vector_dim) →
      (idx.build_from_vectors vs ret).calls = [] ∧
      (idx.build_from_vectors vs ret).state = idx ∧
      ∃ e, (idx.build_from_vectors vs ret).result = .error e) ∧
    ((idx.build_from_vectors vs ret).result = .ok () → vs ≠ [] →
      (idx.build_from_vectors vs ret).state.vector_count = vs.length) ∧
    (vs = [] → idx.build_from_vectors vs ret = ⟨idx, .ok (), []⟩) := by
  obtain ⟨it, vd, nt, ptr, vc⟩ := idx
  refine ⟨fun h => ?_, fun h hne => ?_, fun h => ?_⟩
  · have hne : vs ≠ [] := by rintro rfl; simp at h
    cases vs with
    | nil => simp at h
    | cons v rest =>
      cases ptr with
      | none => simp [VectorIndex.build_from_vectors]
      | some p =>
        simp [VectorIndex.build_from_vectors, flattenChecked_error_of_bad h]
  · cases vs with
    | nil => simp at hne
    | cons v rest =>
      cases ptr with
      | none => simp [VectorIndex.build_from_vectors] at h
      | some p =>
        unfold VectorIndex.build_from_vectors at h ⊢
        simp only [List.isEmpty_cons, Option.isNone_some, Bool.false_eq_true,
          if_false] at h ⊢
        cases hflat : flattenChecked vd (v :: rest) with
        | error e => simp [hflat] at h
        | ok flat =>
          simp only [hflat] at h ⊢
          by_cases hret : ret ≠ 0
          · simp [hret] at h
          · simp [hret]
  · subst h; simp [VectorIndex.build_from_vectors]

/-- C4 witness: a wrong-length element (dimension 2 against configured 4)
fails the whole call with no native call and no state change, and a
successful nonempty build sets the cached count to `len(vs) = 2`. -/
theorem build_from_vectors_spec_witness :
    ((VectorIndex.build_from_vectors ⟨"BKT", 4, 8, some 1, 3⟩ [[1, 2, 3, 4], [1, 2]] 0).calls = [] ∧
      (VectorIndex.build_from_vectors ⟨"BKT", 4, 8, some 1, 3⟩ [[1, 2, 3, 4], [1, 2]] 0).state
        = ⟨"BKT", 4, 8, some 1, 3⟩ ∧
      ∃ e, (VectorIndex.build_from_vectors ⟨"BKT", 4, 8, some 1, 3⟩
        [[1, 2, 3, 4], [1, 2]] 0).result = .error e) ∧
    (VectorIndex.build_from_vectors ⟨"BKT", 4, 8, some 1, 3⟩
      [[1, 2, 3, 4], [5, 6, 7, 8]] 0).state.vector_count = 2 := by
  constructor
  · exact (build_from_vectors_spec ⟨"BKT", 4, 8, some 1, 3⟩ [[1, 2, 3, 4], [1, 2]] 0).1
      ⟨[1, 2], by decide, by decide⟩
  · exact (build_from_vectors_spec ⟨"BKT", 4, 8, some 1, 3⟩ [[1, 2, 3, 4], [5, 6, 7, 8]] 0).2.1
      (by decide) (by decide)

/-- C5 counterexample: a `load` whose archive extraction fails (corrupt
archive) aborts through the `?` operator with no cleanup, leaving the
staging directory behind — so cleanup is not unconditional on every
failure path. -/
theorem load_staging_counterexample :
    (VectorIndex.load ⟨"BKT", 4, 8, some 1, 3⟩
      ⟨true, false, true, true, true, false, true, some 2, true, 3, 4, true⟩).result
      = .error .ExtractError ∧
    (VectorIndex.load ⟨"BKT", 4, 8, some 1, 3⟩
      ⟨true, false, true, true, true, false, true, some 2, true, 3, 4, true⟩).stagingAfter
      = true := by decide

/-- C5 amended: `load` removes its staging directory on the success path
and on the null-native-handle failure path, but an archive extraction
failure leaves the staging directory behind (there is no scoped-cleanup
guard; cleanup is explicit and only on those two paths). -/
theorem load_staging_spec (idx : VectorIndex) (env : LoadEnv) :
    ((idx.load env).result = .ok () → (idx.load env).stagingAfter = false) ∧
    ((idx.load env).result = .error .LoadNull → (idx.load env).stagingAfter = false) ∧
    ((idx.load env).result = .error .ExtractError → (idx.load env).stagingAfter = true) := by
  rcases load_cases idx env with heq | heq | heq | heq | heq | ⟨-, heq⟩ | ⟨-, heq⟩ |
    ⟨h, hsome, heq⟩
  · rw [heq]; refine ⟨?_, ?_, ?_⟩ <;> intro hx <;> simp_all
  · rw [heq]; refine ⟨?_, ?_, ?_⟩ <;> intro hx <;> simp_all
  · rw [heq]; refine ⟨?_, ?_, ?_⟩ <;> intro hx <;> simp_all
  · rw [heq]; refine ⟨?_, ?_, ?_⟩ <;> intro hx <;> simp_all
  · rw [heq]; refine ⟨?_, ?_, ?_⟩ <;> intro hx <;> simp_all
  · rw [heq]; refine ⟨?_, ?_, ?_⟩ <;> intro hx <;> simp_all
  · rw [heq]; refine ⟨?_, ?_, ?_⟩ <;> intro hx <;> simp_all
  · rw [heq, loadInstall_result, loadInstall_stagingAfter]
    cases env.removeFinalOk <;> simp

/-- C5 witness: with every step succeeding, a successful `load` leaves no
staging directory behind. -/
theorem load_staging_spec_witness :
    (VectorIndex.load ⟨"BKT", 4, 8, some 1, 3⟩
      ⟨true, false, true, true, true, true, true, some 2, true, 3, 4, true⟩).stagingAfter
      = false := by
  exact (load_staging_spec ⟨"BKT", 4, 8, some 1, 3⟩
    ⟨true, false, true, true, true, true, true, some 2, true, 3, 4, true⟩).1 (by decide)

/-- C3: `load` leaves the handle state (resource, cached count, configured
dimension) untouched when it fails because the archive is missing, the
archive is corrupt/unextractable, or the native load returns null; on
success the new resource is the installed one, the old resource is
destroyed only when a non-null new resource was obtained (and only after
the native load call), and a handle that had a resource never ends up
without one. -/
theorem load_atomicity (idx : VectorIndex) (env : LoadEnv) :
    ((idx.load env).result = .error .PathNotFound → (idx.load env).state = idx) ∧
    ((idx.load env).result = .error .ExtractError → (idx.load env).state = idx) ∧
    ((idx.load env).result = .error .LoadNull → (idx.load env).state = idx) ∧
    ((idx.load env).result = .ok () →
      ∃ h, env.nativeHandle = some h ∧ (idx.load env).state.index_ptr = some h) ∧
    (NativeCall.destroyIndex ∈ (idx.load env).calls →
      idx.index_ptr.isSome = true ∧ env.nativeHandle.isSome = true ∧
      (idx.load env).calls.head? = some NativeCall.loadIndex) ∧
    (idx.index_ptr.isSome = true → (idx.load env).state.index_ptr.isSome = true) := by
  rcases load_cases idx env with heq | heq | heq | heq | heq | ⟨hnone, heq⟩ | ⟨hnone, heq⟩ |
    ⟨h, hsome, heq⟩
  · rw [heq]; refine ⟨?_, ?_, ?_, ?_, ?_, ?_⟩ <;> intro hx <;> simp_all
  · rw [heq]; refine ⟨?_, ?_, ?_, ?_, ?_, ?_⟩ <;> intro hx <;> simp_all
  · rw [heq]; refine ⟨?_, ?_, ?_, ?_, ?_, ?_⟩ <;> intro hx <;> simp_all
  · rw [heq]; refine ⟨?_, ?_, ?_, ?_, ?_, ?_⟩ <;> intro hx <;> simp_all
  · rw [heq]; refine ⟨?_, ?_, ?_, ?_, ?_, ?_⟩ <;> intro hx <;> simp_all
  · rw [heq]; refine ⟨?_, ?_, ?_, ?_, ?_, ?_⟩ <;> intro hx <;> simp_all
  · rw [heq]; refine ⟨?_, ?_, ?_, ?_, ?_, ?_⟩ <;> intro hx <;> simp_all
  · rw [heq, loadInstall_result, loadInstall_index_ptr, loadInstall_calls]
    refine ⟨?_, ?_, ?_, ?_, ?_, ?_⟩
    · cases env.removeFinalOk <;> simp
    · cases env.removeFinalOk <;> simp
    · cases env.removeFinalOk <;> simp
    · intro _; exact ⟨h, hsome, rfl⟩
    · intro hmem
      have hps : idx.index_ptr.isSome = true := by
        by_contra hns
        simp [hns] at hmem
      simp [hps, hsome]
    · intro _; simp

/-- C3 witness: a corrupt-archive `load` against a populated handle leaves
the handle state untouched, and a fully successful `load` installs the
native handle. -/
theorem load_atomicity_witness :
    (VectorIndex.load ⟨"BKT", 4, 8, some 1, 3⟩
      ⟨true, false, true, true, true, false, true, some 2, true, 3, 4, true⟩).state
      = ⟨"BKT", 4, 8, some 1, 3⟩ ∧
    ∃ h, (some 2 : Option Nat) = some h ∧
      (VectorIndex.load ⟨"BKT", 4, 8, some 1, 3⟩
        ⟨true, false, true, true, true, true, true, some 2, true, 3, 4, true⟩).state.index_ptr
        = some h := by
  constructor
  · exact (load_atomicity ⟨"BKT", 4, 8, some 1, 3⟩
      ⟨true, false, true, true, true, false, true, some 2, true, 3, 4, true⟩).2.1 (by decide)
  · exact (load_atomicity ⟨"BKT", 4, 8, some 1, 3⟩
      ⟨true, false, true, true, true, true, true, some 2, true, 3, 4, true⟩).2.2.2.1 (by decide)

/-- C8: after a successful `load` whose freshly loaded index reports a
non-negative count and dimension, the cached `vector_count` is refreshed to
the reported count; if the reported dimension differs from the configured
`vector_dim` the configured dimension is overwritten to the loaded value
and a dimension-change warning is recorded, otherwise the configured
dimension stands. -/
theorem load_refresh_spec (idx : VectorIndex) (env : LoadEnv)
    (hok : (idx.load env).result = .ok ())
    (hnum : 0 ≤ env.nativeNumVectors) (hdim : 0 ≤ env.nativeDimension) :
    (idx.load env).state.vector_count = env.nativeNumVectors.toNat ∧
    (env.nativeDimension.toNat ≠ idx.vector_dim →
      (idx.load env).state.vector_dim = env.nativeDimension.toNat ∧
      Warning.dimensionChanged env.nativeDimension.toNat idx.vector_dim
        ∈ (idx.load env).warnings) ∧
    (env.nativeDimension.toNat = idx.vector_dim →
      (idx.load env).state.vector_dim = idx.vector_dim) := by
  rcases load_cases idx env with heq | heq | heq | heq | heq | ⟨-, heq⟩ | ⟨-, heq⟩ |
    ⟨h, hsome, heq⟩
  · rw [heq] at hok; simp at hok
  · rw [heq] at hok; simp at hok
  · rw [heq] at hok; simp at hok
  · rw [heq] at hok; simp at hok
  · rw [heq] at hok; simp at hok
  · rw [heq] at hok; simp at hok
  · rw [heq] at hok; simp at hok
  · rw [heq] at hok ⊢
    rw [loadInstall_result] at hok
    cases hrf : env.removeFinalOk
    · rw [hrf] at hok; simp at hok
    · exact ⟨loadInstall_vector_count idx h env.nativeDimension true hnum,
        (loadInstall_vector_dim idx h env.nativeNumVectors true hdim).1,
        (loadInstall_vector_dim idx h env.nativeNumVectors true hdim).2⟩

/-- C8 witness: a successful `load` reporting 7 vectors of dimension 6
against a handle configured at dimension 4 refreshes the count to 7,
overwrites the dimension to 6, and records the warning. -/
theorem load_refresh_spec_witness :
    (VectorIndex.load ⟨"BKT", 4, 8, some 1, 3⟩
      ⟨true, false, true, true, true, true, true, some 2, true, 7, 6, true⟩).state.vector_count
      = Int.toNat 7 ∧
    ((6 : Int).toNat ≠ 4 →
      (VectorIndex.load ⟨"BKT", 4, 8, some 1, 3⟩
        ⟨true, false, true, true, true, true, true, some 2, true, 7, 6, true⟩).state.vector_dim
        = (6 : Int).toNat ∧
      Warning.dimensionChanged (6 : Int).toNat 4
        ∈ (VectorIndex.load ⟨"BKT", 4, 8, some 1, 3⟩
          ⟨true, false, true, true, true, true, true, some 2, true, 7, 6, true⟩).warnings) ∧
    ((6 : Int).toNat = 4 →
      (VectorIndex.load ⟨"BKT", 4, 8, some 1, 3⟩
        ⟨true, false, true, true, true, true, true, some 2, true, 7, 6, true⟩).state.vector_dim
        = 4) := by
  exact load_refresh_spec ⟨"BKT", 4, 8, some 1, 3⟩
    ⟨true, false, true, true, true, true, true, some 2, true, 7, 6, true⟩
    (by decide) (by decide) (by decide)

/-- A successful `read_batch` pairs the requested IDs with the returned
records one-to-one, in order: record `r` stands at the position of `id`
exactly when line `id` of the log is `r`. -/
theorem read_batch_ok_forall₂ {log : List ReviewMetadata} {ids : List Nat}
    {rs : List ReviewMetadata} (h : read_batch log ids = .ok rs) :
    List.Forall₂ (fun id r => log.get? id = some r) ids rs := by
  induction ids generalizing rs with
  | nil =>
    unfold read_batch at h
    simp at h
    subst h
    exact .nil
  | cons i rest ih =>
    unfold read_batch at h
    cases hg : log.get? i with
    | none => rw [hg] at h; simp at h
    | some r =>
      rw [hg] at h
      cases hrec : read_batch log rest with
      | error e => rw [hrec] at h; simp at h
      | ok rs0 =>
        rw [hrec] at h
        simp at h
        subst h
        exact .cons hg (ih hrec)

/-- A requested ID with no corresponding log line makes `read_batch` fail
with `RecordNotFound`. -/
theorem read_batch_error_of_missing {log : List ReviewMetadata} {ids : List Nat}
    (h : ∃ id ∈ ids, log.get? id = none) :
    ∃ id, read_batch log ids = .error (.RecordNotFound id) := by
  induction ids with
  | nil => simp at h
  | cons i rest ih =>
    rcases h with ⟨id, hmem, hnone⟩
    cases hg : log.get? i with
    | none => exact ⟨i, by unfold read_batch; rw [hg]⟩
    | some r =>
      rcases List.mem_cons.mp hmem with rfl | hmem2
      · rw [hg] at hnone; cases hnone
      · rcases ih ⟨id, hmem2, hnone⟩ with ⟨id2, hrec⟩
        exact ⟨id2, by unfold read_batch; rw [hg, hrec]⟩

/-- C6: `read_batch` on success returns exactly one record per requested
ID in the input order (so output count equals input count, with no silent
skipping); it fails with `RecordNotFound` whenever some requested ID is at
or beyond `count_lines()`; and on the empty ID list it returns the empty
sequence. -/
theorem read_batch_spec (log : List ReviewMetadata) (ids : List Nat) :
    (∀ rs, read_batch log ids = .ok rs →
      rs.length = ids.length ∧
      List.Forall₂ (fun id r => log.get? id = some r) ids rs) ∧
    ((∃ id ∈ ids, count_lines log ≤ id) →
      ∃ id, read_batch log ids = .error (.RecordNotFound id)) ∧
    read_batch log [] = .ok [] := by
  refine ⟨fun rs h => ⟨(read_batch_ok_forall₂ h).length_eq.symm, read_batch_ok_forall₂ h⟩,
    ?_, rfl⟩
  rintro ⟨id, hmem, hge⟩
  exact read_batch_error_of_missing ⟨id, hmem, List.get?_eq_none.mpr hge⟩

/-- C6 witness: on a three-record log, `read_batch [0, 2]` returns records
0 and 2 in that order, and `read_batch [5]` fails with `RecordNotFound`. -/
theorem read_batch_spec_witness :
    (∃ rs, read_batch [⟨['a'], ['b'], ['p'], 5⟩, ⟨['c'], ['d'], ['q'], 1⟩,
        ⟨['e'], ['f'], ['r'], 3⟩] [0, 2] = .ok rs ∧ rs.length = ([0, 2] : List Nat).length) ∧
    (∃ id, read_batch [⟨['a'], ['b'], ['p'], 5⟩, ⟨['c'], ['d'], ['q'], 1⟩, ⟨['e'], ['f'], ['r'], 3⟩]
        [5] = .error (.RecordNotFound id)) := by
  constructor
  · exact ⟨[⟨['a'], ['b'], ['p'], 5⟩, ⟨['e'], ['f'], ['r'], 3⟩], by decide,
      ((read_batch_spec
        [⟨['a'], ['b'], ['p'], 5⟩, ⟨['c'], ['d'], ['q'], 1⟩, ⟨['e'], ['f'], ['r'], 3⟩] [0, 2]).1
        [⟨['a'], ['b'], ['p'], 5⟩, ⟨['e'], ['f'], ['r'], 3⟩] (by decide)).1⟩
  · exact (read_batch_spec
      [⟨['a'], ['b'], ['p'], 5⟩, ⟨['c'], ['d'], ['q'], 1⟩, ⟨['e'], ['f'], ['r'], 3⟩] [5]).2.1
      ⟨5, by decide, by decide⟩

/-- Indexed reads of the first `n` positions of a list agree with its
`n`-element prefix. -/
theorem map_range_getD {α : Type} (l : List α) (d : α) (n : Nat) (h : n ≤ l.length) :
    (List.range n).map (fun i => l.getD i d) = l.take n := by
  induction n with
  | zero => simp
  | succ m ih =>
    have hm : m < l.length := h
    rw [List.range_succ, List.map_append, ih (Nat.le_of_succ_le h), List.take_succ]
    simp [List.getD_eq_getElem l d hm, List.getElem?_eq_getElem hm]

/-- C7: `search` fails with `DimensionMismatch` on a wrong-length query,
with `NotInitialized` (given a matching length) on a null handle, and with
`SearchFailed` when the native call returns a negative count; otherwise,
provided the native outcome respects the engine contract (count between 0
and `k`, both buffers of length `k`), it returns the `(vector_id, distance)`
pairs read off the buffers: at most `k` of them, with distances exactly the
first `count` native distances — so ascending native order is preserved in
the returned sequence. -/
theorem search_spec (idx : VectorIndex) (q : List F32) (k : Nat) (native : SearchNative) :
    (q.length ≠ idx.vector_dim →
      idx.search q k native = ⟨.error .DimensionMismatch, []⟩) ∧
    (q.length = idx.vector_dim → idx.index_ptr = none →
      idx.search q k native = ⟨.error .NotInitialized, []⟩) ∧
    (q.length = idx.vector_dim → idx.index_ptr.isSome = true → native.ret < 0 →
      idx.search q k native =
        ⟨.error .SearchFailed, [NativeCall.searchIndex idx.vector_dim k]⟩) ∧
    (q.length = idx.vector_dim → idx.index_ptr.isSome = true → 0 ≤ native.ret →
      native.ret.toNat ≤ k → native.ids.length = k → native.dists.length = k →
      ∃ rs, (idx.search q k native).result = .ok rs ∧
        rs.length ≤ k ∧
        rs.map SearchResult.distance = native.dists.take native.ret.toNat ∧
        (List.Sorted (· ≤ ·) (native.dists.take native.ret.toNat) →
          List.Sorted (· ≤ ·) (rs.map SearchResult.distance)) ∧
        rs.map SearchResult.vector_id = (native.ids.take native.ret.toNat).map Int.toNat) := by
  refine ⟨fun h => ?_, fun h h2 => ?_, fun h h2 h3 => ?_, fun h h2 h3 h4 h5 h6 => ?_⟩
  · simp [VectorIndex.search, h]
  · simp [VectorIndex.search, h, h2]
  · obtain ⟨p, hp⟩ := Option.isSome_iff_exists.mp h2
    simp [VectorIndex.search, h, hp, h3]
  · obtain ⟨p, hp⟩ := Option.isSome_iff_exists.mp h2
    have hres : (idx.search q k native).result =
        .ok ((List.range native.ret.toNat).map fun i =>
          SearchResult.mk (native.ids.getD i 0).toNat (native.dists.getD i 0)) := by
      simp [VectorIndex.search, h, hp, Int.not_lt.mpr h3]
    have hdist : ((List.range native.ret.toNat).map fun i =>
        SearchResult.mk (native.ids.getD i 0).toNat (native.dists.getD i 0)).map
          SearchResult.distance = native.dists.take native.ret.toNat := by
      rw [List.map_map]
      exact map_range_getD native.dists 0 native.ret.toNat (by rw [h6]; exact h4)
    have hid : ((List.range native.ret.toNat).map fun i =>
        SearchResult.mk (native.ids.getD i 0).toNat (native.dists.getD i 0)).map
          SearchResult.vector_id = (native.ids.take native.ret.toNat).map Int.toNat := by
      rw [List.map_map,
        ← map_range_getD native.ids 0 native.ret.toNat (by rw [h5]; exact h4),
        List.map_map]
      rfl
    exact ⟨_, hres, by simpa using h4, hdist, fun hs => hdist.symm ▸ hs, hid⟩

/-- C7 witness: a native outcome returning 2 of k = 3 requested neighbours
with ascending distances is passed through in order, and a wrong-length
query is rejected with `DimensionMismatch`. -/
theorem search_spec_witness :
    (VectorIndex.search ⟨"BKT", 2, 8, some 1, 3⟩ [1] 3 ⟨2, [4, 2, 0], [1, 3, 0]⟩
      = ⟨.error .DimensionMismatch, []⟩) ∧
    ∃ rs, (VectorIndex.search ⟨"BKT", 2, 8, some 1, 3⟩ [1, 2] 3
        ⟨2, [4, 2, 0], [1, 3, 0]⟩).result = .ok rs ∧
      rs.length ≤ 3 ∧
      rs.map SearchResult.distance = ([1, 3, 0] : List F32).take (Int.toNat 2) ∧
      (List.Sorted (· ≤ ·) (([1, 3, 0] : List F32).take (Int.toNat 2)) →
        List.Sorted (· ≤ ·) (rs.map SearchResult.distance)) ∧
      rs.map SearchResult.vector_id
        = (([4, 2, 0] : List Int).take (Int.toNat 2)).map Int.toNat := by
  constructor
  · exact (search_spec ⟨"BKT", 2, 8, some 1, 3⟩ [1] 3 ⟨2, [4, 2, 0], [1, 3, 0]⟩).1 (by decide)
  · exact (search_spec ⟨"BKT", 2, 8, some 1, 3⟩ [1, 2] 3 ⟨2, [4, 2, 0], [1, 3, 0]⟩).2.2.2
      (by decide) (by decide) (by decide) (by decide) (by decide) (by decide)

/-- Validation of an add-review request succeeds exactly when no field
check fires. -/
theorem addReview_validate_ok_iff (r : AddReviewRequest) :
    r.validate = .ok () ↔
      ¬((trim r.review_title).isEmpty = true ∨ (trim r.review_body).isEmpty = true ∨
        (trim r.product_id).isEmpty = true ∨ r.review_rating < 1 ∨ r.review_rating > 5) := by
  unfold AddReviewRequest.validate
  split_ifs with h1 h2 h3 h4 <;> simp_all

/-- Validation of a search request succeeds exactly when no check fires. -/
theorem search_validate_ok_iff (r : SearchRequest) :
    r.validate = .ok () ↔
      ¬((trim r.query).isEmpty = true ∨ r.top_k = 0 ∨ r.top_k > 100) := by
  unfold SearchRequest.validate
  split_ifs with h1 h2 <;> simp_all

/-- The add-review handler rejects with `BadRequest` exactly when
validation fails, and a rejected request triggers no effect and no state
change. -/
theorem add_review_gate (idx : VectorIndex) (req : AddReviewRequest) (env : AddReviewEnv) :
    (isBadRequest (add_review_handler idx req env).result = true ↔
      ((trim req.review_title).isEmpty = true ∨ (trim req.review_body).isEmpty = true ∨
        (trim req.product_id).isEmpty = true ∨ req.review_rating < 1 ∨
        req.review_rating > 5)) ∧
    (isBadRequest (add_review_handler idx req env).result = true →
      (add_review_handler idx req env).events = [] ∧
      (add_review_handler idx req env).state = idx) := by
  by_cases hc : ((trim req.review_title).isEmpty = true ∨ (trim req.review_body).isEmpty = true ∨
      (trim req.product_id).isEmpty = true ∨ req.review_rating < 1 ∨ req.review_rating > 5)
  · cases hv : req.validate with
    | ok u =>
      cases u
      exact absurd hc (by simpa using (addReview_validate_ok_iff req).mp hv)
    | error msg =>
      have hh : add_review_handler idx req env = ⟨idx, .error (.BadRequest msg), [], []⟩ := by
        unfold add_review_handler
        rw [hv]
      rw [hh]
      refine ⟨?_, fun _ => ⟨rfl, rfl⟩⟩
      simp only [isBadRequest]
      simpa using hc
  · have hv : req.validate = .ok () := (addReview_validate_ok_iff req).mpr hc
    have hnot : isBadRequest (add_review_handler idx req env).result = false := by
      unfold add_review_handler
      rw [hv]
      cases he : env.embedResult with
      | error e => simp [isBadRequest]
      | ok emb =>
        cases ha : (idx.add_vector emb env.addRet).result with
        | error e => simp [ha, isBadRequest]
        | ok vid =>
          cases hs : ((idx.add_vector emb env.addRet).state.save env.saveEnv).result with
          | error e => simp [ha, hs, isBadRequest]
          | ok u2 =>
            cases u2
            cases hap : env.appendResult with
            | error e => simp [ha, hs, hap, isBadRequest]
            | ok sid => simp [ha, hs, hap, isBadRequest]
    rw [hnot]
    exact ⟨by simpa using hc, by simp⟩

/-- The search handler rejects with `BadRequest` exactly when validation
fails, and a rejected request triggers no effect and no state change. -/
theorem search_gate (idx : VectorIndex) (req : SearchRequest) (env : SearchHandlerEnv) :
    (isBadRequest (search_handler idx req env).result = true ↔
      ((trim req.query).isEmpty = true ∨ req.top_k = 0 ∨ req.top_k > 100)) ∧
    (isBadRequest (search_handler idx req env).result = true →
      (search_handler idx req env).events = [] ∧
      (search_handler idx req env).state = idx) := by
  by_cases hc : ((trim req.query).isEmpty = true ∨ req.top_k = 0 ∨ req.top_k > 100)
  · cases hv : req.validate with
    | ok u =>
      cases u
      exact absurd hc (by simpa using (search_validate_ok_iff req).mp hv)
    | error msg =>
      have hh : search_handler idx req env = ⟨idx, .error (.BadRequest msg), [], []⟩ := by
        unfold search_handler
        rw [hv]
      rw [hh]
      refine ⟨?_, fun _ => ⟨rfl, rfl⟩⟩
      simp only [isBadRequest]
      simpa using hc
  · have hv : req.validate = .ok () := (search_validate_ok_iff req).mpr hc
    have hnot : isBadRequest (search_handler idx req env).result = false := by
      unfold search_handler
      rw [hv]
      cases he : env.embedResult with
      | error e => simp [isBadRequest]
      | ok emb =>
        cases hs : (idx.search emb req.top_k env.native).result with
        | error e => simp [hs, isBadRequest]
        | ok rs =>
          cases hr : read_batch env.log (rs.map SearchResult.vector_id) with
          | error e => simp [hs, hr, isBadRequest]
          | ok ms => simp [hs, hr, isBadRequest]
    rw [hnot]
    exact ⟨by simpa using hc, by simp⟩

/-- C9: request validation is a raises-iff client-fault gate performed
before any embedding or index mutation — an add-review request is rejected
with `BadRequest` exactly when its trimmed title, body or product ID is
empty or its rating lies outside 1..=5, a search request exactly when its
trimmed query is empty or `top_k` is 0 or above 100; a rejected request
triggers no embedding call, no native call, and no index-state change, and
`BadRequest` maps to HTTP status 400. -/
theorem validation_gate_spec (idx : VectorIndex) (reqA : AddReviewRequest)
    (reqS : SearchRequest) (envA : AddReviewEnv) (envS : SearchHandlerEnv) :
    (isBadRequest (add_review_handler idx reqA envA).result = true ↔
      ((trim reqA.review_title).isEmpty = true ∨ (trim reqA.review_body).isEmpty = true ∨
        (trim reqA.product_id).isEmpty = true ∨ reqA.review_rating < 1 ∨
        reqA.review_rating > 5)) ∧
    (isBadRequest (add_review_handler idx reqA envA).result = true →
      (add_review_handler idx reqA envA).events = [] ∧
      (add_review_handler idx reqA envA).state = idx) ∧
    (isBadRequest (search_handler idx reqS envS).result = true ↔
      ((trim reqS.query).isEmpty = true ∨ reqS.top_k = 0 ∨ reqS.top_k > 100)) ∧
    (isBadRequest (search_handler idx reqS envS).result = true →
      (search_handler idx reqS envS).events = [] ∧
      (search_handler idx reqS envS).state = idx) ∧
    (∀ msg, (AppError.BadRequest msg).status_code = 400) := by
  exact ⟨(add_review_gate idx reqA envA).1, (add_review_gate idx reqA envA).2,
    (search_gate idx reqS envS).1, (search_gate idx reqS envS).2, fun msg => rfl⟩

/-- C9 witness: a request whose title is all whitespace is rejected with
no effects and no state change, and a search request with `top_k = 0` is
likewise rejected. -/
theorem validation_gate_spec_witness :
    ((add_review_handler ⟨"BKT", 2, 8, some 1, 3⟩ ⟨[' '], ['b'], ['p'], 5⟩
        ⟨.ok [1, 2], 0, ⟨false, true, true, true, 0, true, true, true⟩, .ok 3⟩).events = [] ∧
      (add_review_handler ⟨"BKT", 2, 8, some 1, 3⟩ ⟨[' '], ['b'], ['p'], 5⟩
        ⟨.ok [1, 2], 0, ⟨false, true, true, true, 0, true, true, true⟩, .ok 3⟩).state
        = ⟨"BKT", 2, 8, some 1, 3⟩) ∧
    ((search_handler ⟨"BKT", 2, 8, some 1, 3⟩ ⟨['q'], 0⟩
        ⟨.ok [1, 2], ⟨1, [0, 0], [0, 0]⟩, []⟩).events = [] ∧
      (search_handler ⟨"BKT", 2, 8, some 1, 3⟩ ⟨['q'], 0⟩
        ⟨.ok [1, 2], ⟨1, [0, 0], [0, 0]⟩, []⟩).state = ⟨"BKT", 2, 8, some 1, 3⟩) := by
  constructor
  · exact (validation_gate_spec ⟨"BKT", 2, 8, some 1, 3⟩ ⟨[' '], ['b'], ['p'], 5⟩ ⟨['q'], 1⟩
      ⟨.ok [1, 2], 0, ⟨false, true, true, true, 0, true, true, true⟩, .ok 3⟩
      ⟨.ok [1, 2], ⟨1, [0, 0], [0, 0]⟩, []⟩).2.1 (by decide)
  · exact (validation_gate_spec ⟨"BKT", 2, 8, some 1, 3⟩ ⟨[' '], ['b'], ['p'], 5⟩ ⟨['q'], 0⟩
      ⟨.ok [1, 2], 0, ⟨false, true, true, true, 0, true, true, true⟩, .ok 3⟩
      ⟨.ok [1, 2], ⟨1, [0, 0], [0, 0]⟩, []⟩).2.2.2.1 (by decide)

/-- C1: in the write path, after a successful `add_vector` and index save,
when the vector ID returned by the index differs from the ordinal ID
returned by the metadata-log append, the handler records a consistency
warning but performs no rollback and returns no error: the response still
reports success with the vector's ID as the authoritative ID, and the
added vector stays in the index (cached count still incremented). -/
theorem id_mismatch_no_rollback (idx : VectorIndex) (req : AddReviewRequest)
    (env : AddReviewEnv) (emb : List F32) (stored_id : Nat)
    (hval : req.validate = .ok ())
    (hemb : env.embedResult = .ok emb)
    (hdim : emb.length = idx.vector_dim)
    (hptr : idx.index_ptr.isSome = true)
    (hadd : 0 ≤ env.addRet)
    (hsave : ((idx.add_vector emb env.addRet).state.save env.saveEnv).result = .ok ())
    (happ : env.appendResult = .ok stored_id)
    (hne : env.addRet.toNat ≠ stored_id) :
    (add_review_handler idx req env).result = .ok ⟨env.addRet.toNat, "success"⟩ ∧
    Warning.idMismatch env.addRet.toNat stored_id ∈ (add_review_handler idx req env).warnings ∧
    (add_review_handler idx req env).state.vector_count = idx.vector_count + 1 := by
  obtain ⟨p, hp⟩ := Option.isSome_iff_exists.mp hptr
  have haddres : idx.add_vector emb env.addRet =
      ⟨{ idx with vector_count := idx.vector_count + 1 }, .ok env.addRet.toNat,
        [NativeCall.addVector emb idx.vector_dim]⟩ := by
    simp [VectorIndex.add_vector, hdim, hp, Int.not_lt.mpr hadd]
  have hsres : (VectorIndex.save { idx with vector_count := idx.vector_count + 1 }
      env.saveEnv).result = .ok () := by
    rw [haddres] at hsave
    exact hsave
  simp [add_review_handler, hval, hemb, haddres, hsres, happ, hne]

/-- C1 witness: a concrete write where the index assigns vector ID 0 but
the metadata append returns ordinal 7 — the handler still replies success
with ID 0, records the mismatch warning, and keeps the added vector. -/
theorem id_mismatch_no_rollback_witness :
    (add_review_handler ⟨"BKT", 2, 8, some 1, 0⟩ ⟨['t'], ['b'], ['p'], 5⟩
        ⟨.ok [1, 2], 0, ⟨false, true, true, true, 0, true, true, true⟩, .ok 7⟩).result
      = .ok ⟨(0 : Int).toNat, "success"⟩ ∧
    Warning.idMismatch (0 : Int).toNat 7
      ∈ (add_review_handler ⟨"BKT", 2, 8, some 1, 0⟩ ⟨['t'], ['b'], ['p'], 5⟩
        ⟨.ok [1, 2], 0, ⟨false, true, true, true, 0, true, true, true⟩, .ok 7⟩).warnings ∧
    (add_review_handler ⟨"BKT", 2, 8, some 1, 0⟩ ⟨['t'], ['b'], ['p'], 5⟩
        ⟨.ok [1, 2], 0, ⟨false, true, true, true, 0, true, true, true⟩, .ok 7⟩).state.vector_count
      = 0 + 1 := by
  exact id_mismatch_no_rollback ⟨"BKT", 2, 8, some 1, 0⟩ ⟨['t'], ['b'], ['p'], 5⟩
    ⟨.ok [1, 2], 0, ⟨false, true, true, true, 0, true, true, true⟩, .ok 7⟩ [1, 2] 7
    (by decide) rfl rfl rfl (by decide) (by decide) rfl (by decide)

/-- C10: the health query never fails — whatever the metadata store's
count result is, the response reports status "healthy", and when counting
the log's lines fails the reported total is 0 rather than an error. -/
theorem health_handler_spec (countResult : Except String Nat) (e : String) :
    (health_handler countResult).status = "healthy" ∧
    (health_handler (.error e)).total_reviews = 0 := by
  cases countResult <;> exact ⟨rfl, rfl⟩

end VectorService
